import Mathlib

/-!
Shallow embedding of the autocamera webcam service (src/webcam/camera.py,
src/webcam/web.py, src/webcam/service.py) and proofs about its
frame cache, process supervision, output monitors, frame reader and
HTTP endpoints.

Timestamps are modelled as rationals (Python floats used only for
comparison and subtraction here).  Frames are an abstract type
parameter.  Module-level mutable globals become explicit state; the
thread interleavings relevant to the concurrency claim become explicit
step indices.
-/

namespace Webcam

/-- The pair of module-level globals frame_buffer / frame_buffer_time
(camera.py lines 18 and 19).  Both start as None. -/
structure FrameCache (Frame Time : Type) where
  frame_buffer : Option Frame
  frame_buffer_time : Option Time
deriving DecidableEq, Repr

/-- Initial state of the globals: frame_buffer = None, frame_buffer_time = None. -/
def initialCache (Frame Time : Type) : FrameCache Frame Time :=
  { frame_buffer := none, frame_buffer_time := none }

/-- The assignment frame_buffer = frame (camera.py line 120), one atomic store. -/
def setFrameStep {Frame Time : Type} (st : FrameCache Frame Time) (f : Frame) :
    FrameCache Frame Time :=
  { st with frame_buffer := some f }

/-- The assignment frame_buffer_time = time.time() (camera.py line 121),
one atomic store. -/
def setTimeStep {Frame Time : Type} (st : FrameCache Frame Time) (t : Time) :
    FrameCache Frame Time :=
  { st with frame_buffer_time := some t }

/-- A whole Publish: both globals written (camera.py lines 120 and 121 run to
completion with no reader in between). -/
def publish {Frame Time : Type} (st : FrameCache Frame Time) (f : Frame) (t : Time) :
    FrameCache Frame Time :=
  setTimeStep (setFrameStep st f) t

/-- Snapshot: what a reader of the two globals obtains when both reads happen
with no interleaved writer step; absent unless both globals are set. -/
def snapshot {Frame Time : Type} (st : FrameCache Frame Time) :
    Option (Frame × Time) :=
  match st.frame_buffer, st.frame_buffer_time with
  | some f, some t => some (f, t)
  | _, _ => none

/-!
Interleaving model for the concurrency claim.  One completed Publish
(tag 0) is in the cache, a second Publish (tag 1) runs its two stores
in program order, and a concurrent Snapshot performs its two loads in
program order.  Frame and timestamp values are the tag of the Publish
that wrote them, so a matched pair is one whose two tags agree.  The
writer's progress is a step count: writerState k is the cache after
the writer has executed k of its two stores.
-/

/-- Cache state after Publish 0 has completed, before Publish 1 starts. -/
def publishStart : FrameCache Nat Nat :=
  publish (initialCache Nat Nat) 0 0

/-- Cache state after the writer has executed k steps of Publish 1:
first the frame store (camera.py line 120), then the time store (line 121). -/
def writerState : Nat → FrameCache Nat Nat
  | 0 => publishStart
  | 1 => setFrameStep publishStart 1
  | _ + 2 => setTimeStep (setFrameStep publishStart 1) 1

/-- A Publish is exactly its two stores in order. -/
theorem publish_eq_two_steps {Frame Time : Type} (st : FrameCache Frame Time)
    (f : Frame) (t : Time) :
    publish st f t = setTimeStep (setFrameStep st f) t := rfl

/-- Claim C1, counterexample.  The claim states that under any interleaving a
reader never observes a frame paired with a timestamp from a different
Publish.  In the two-store model of Publish, the interleaving in which the
frame load and the timestamp load of the reader both run after the frame
store but before the timestamp store (read positions i = 1, j = 1) yields
the new frame with the previous timestamp of Publish, so no single tag k
labels both. -/
theorem frame_time_pairing_not_atomic :
    ¬ (∀ i j : Nat, i ≤ j →
        ∃ k : Nat, (writerState i).frame_buffer = some k ∧
          (writerState j).frame_buffer_time = some k) := by
  intro h
  obtain ⟨k, hf, ht⟩ := h 1 1 le_rfl
  simp [writerState, publishStart, publish, setFrameStep, setTimeStep,
    initialCache] at hf ht
  omega

/-- Claim C1, amended.  The two globals are written in two separate stores
with no lock (camera.py lines 120 and 121), so a reader whose frame load
happens after i writer steps and whose timestamp load happens after j
writer steps (i less than or equal to j, loads in program order) observes
a pair written by a single Publish exactly when the frame store has
happened before the frame load if and only if the timestamp store has
happened before the timestamp load; in every other interleaving the pair
mixes two Publishes. -/
theorem snapshot_pair_matched_iff (i j : Nat) (hij : i ≤ j) :
    (∃ k : Nat, (writerState i).frame_buffer = some k ∧
        (writerState j).frame_buffer_time = some k) ↔ (1 ≤ i ↔ 2 ≤ j) := by
  rcases i with _ | _ | i <;> rcases j with _ | _ | j <;>
    simp [writerState, publishStart, publish, setFrameStep, setTimeStep,
      initialCache]

/-- Witness for the amended claim C1 at the interleaving i = 2, j = 2: a
snapshot whose loads both run after the complete Publish observes the
matched pair of that Publish. -/
theorem snapshot_pair_matched_iff_witness :
    (∃ k : Nat, (writerState 2).frame_buffer = some k ∧
        (writerState 2).frame_buffer_time = some k) ↔ (1 ≤ 2 ↔ 2 ≤ 2) :=
  snapshot_pair_matched_iff 2 2 (by decide)

/-- Claim C2: a Snapshot taken immediately after Publish(f, t) returns
exactly the pair (f, t), and a Snapshot of the initial state (no frame
ever published) reports absent. -/
theorem snapshot_publish_and_initial {Frame Time : Type}
    (st : FrameCache Frame Time) (f : Frame) (t : Time) :
    snapshot (publish st f t) = some (f, t) ∧
      snapshot (initialCache Frame Time) = none :=
  ⟨rfl, rfl⟩

/-!
Process supervision: setup_camera (camera.py lines 32 to 71) and
cleanup_camera (camera.py lines 74 to 96).  The OS collaborator is an
environment of flags saying which external operation fails; a Python
exception becomes an Except error, a try/except block becomes an
explicit catch.
-/

/-- Which external operations fail during setup_camera. -/
structure SetupEnv where
  modprobeFails : Bool
  gphotoLaunchFails : Bool
  ffmpegLaunchFails : Bool
deriving DecidableEq, Repr

/-- Observable outcome of one setup_camera call: how often each launch was
attempted, how often cleanup_camera ran, whether the two monitor threads
were started, and what the caller of setup_camera sees. -/
structure SetupResult where
  gphotoLaunches : Nat
  ffmpegLaunches : Nat
  cleanupCalls : Nat
  monitorsStarted : Bool
  result : Except String Unit
deriving Repr

/-- setup_camera (camera.py lines 32 to 71).  The pkill and rmmod commands
run with check=False and cannot raise on a nonzero exit; the modprobe
command runs with check=True and raises before the try block, so a
modprobe failure propagates to the caller with nothing launched and no
cleanup.  Inside the try block a launch failure is caught by the except
clause, which logs and calls cleanup_camera; setup_camera then returns
None, so the caller sees no error. -/
def setup_camera (env : SetupEnv) : SetupResult :=
  if env.modprobeFails then
    { gphotoLaunches := 0, ffmpegLaunches := 0, cleanupCalls := 0,
      monitorsStarted := false,
      result := .error "modprobe v4l2loopback returned non-zero exit status" }
  else if env.gphotoLaunchFails then
    { gphotoLaunches := 1, ffmpegLaunches := 0, cleanupCalls := 1,
      monitorsStarted := false, result := .ok () }
  else if env.ffmpegLaunchFails then
    { gphotoLaunches := 1, ffmpegLaunches := 1, cleanupCalls := 1,
      monitorsStarted := false, result := .ok () }
  else
    { gphotoLaunches := 1, ffmpegLaunches := 1, cleanupCalls := 0,
      monitorsStarted := true, result := .ok () }

/-- Claim C3, counterexample.  The claim states that every launch failure,
the kernel-module command included, both triggers Cleanup and is surfaced
to the caller.  A modprobe failure (env with only modprobeFails set)
surfaces the error but runs no cleanup at all, so the conjunction fails. -/
theorem setup_failure_claim_false :
    ¬ (∀ env : SetupEnv,
        (env.modprobeFails = true ∨ env.gphotoLaunchFails = true ∨
            env.ffmpegLaunchFails = true) →
          (setup_camera env).cleanupCalls = 1 ∧
            ∃ e, (setup_camera env).result = Except.error e) := by
  intro h
  obtain ⟨h1, -⟩ := h ⟨true, false, false⟩ (Or.inl rfl)
  simp [setup_camera] at h1

/-- Claim C3, amended.  A kernel-module command failure is surfaced to the
caller of setup_camera as an error but Cleanup is not invoked; a source-
or converter-process launch failure invokes Cleanup exactly once but is
swallowed, setup_camera returning normally; in every case each launch is
attempted at most once, so setup_camera never retries. -/
theorem setup_failure_behavior (env : SetupEnv) :
    ((setup_camera env).cleanupCalls =
        if env.modprobeFails = false ∧
            (env.gphotoLaunchFails = true ∨ env.ffmpegLaunchFails = true)
          then 1 else 0) ∧
      ((setup_camera env).result =
        if env.modprobeFails = true
          then Except.error "modprobe v4l2loopback returned non-zero exit status"
          else Except.ok ()) ∧
      (setup_camera env).gphotoLaunches ≤ 1 ∧
      (setup_camera env).ffmpegLaunches ≤ 1 := by
  obtain ⟨m, g, f⟩ := env
  cases m <;> cases g <;> cases f <;> simp [setup_camera]

/-- Which processes are currently held in the two module-level handles and
which cleanup operations fail.  A handle left set by an earlier run, a
handle of an already terminated process, and an unset handle are all
possible states; cleanup_camera never writes the handles back, so the same
environment also describes a repeated invocation. -/
structure CleanupEnv where
  gphotoSet : Bool
  ffmpegSet : Bool
  termGphotoFails : Bool
  termFfmpegFails : Bool
  pkillFails : Bool
  rmmodFails : Bool
deriving DecidableEq, Repr

/-- The four teardown steps of cleanup_camera in source order. -/
inductive CleanupStep where
  | terminateSource
  | terminateConverter
  | killByName
  | unloadModule
deriving DecidableEq, Repr

/-- if gphoto2_process: gphoto2_process.terminate() (camera.py lines 78, 79):
with the handle unset the call is skipped and cannot fail. -/
def terminateSourceStep (env : CleanupEnv) : Except String Unit :=
  if env.gphotoSet && env.termGphotoFails
    then .error "terminating gphoto2 process" else .ok ()

/-- if ffmpeg_process: ffmpeg_process.terminate() (camera.py lines 83, 84). -/
def terminateConverterStep (env : CleanupEnv) : Except String Unit :=
  if env.ffmpegSet && env.termFfmpegFails
    then .error "terminating ffmpeg process" else .ok ()

/-- subprocess.run(["sudo", "pkill", "-9", "gphoto2"], check=False)
(camera.py line 88). -/
def killByNameStep (env : CleanupEnv) : Except String Unit :=
  if env.pkillFails then .error "running pkill on gphoto2" else .ok ()

/-- subprocess.run(["sudo", "rmmod", "v4l2loopback"], check=False)
(camera.py line 93). -/
def unloadModuleStep (env : CleanupEnv) : Except String Unit :=
  if env.rmmodFails then .error "cleaning up camera" else .ok ()

/-- The four steps with their outcomes, in the order the source runs them. -/
def cleanupSteps (env : CleanupEnv) : List (CleanupStep × Except String Unit) :=
  [(.terminateSource, terminateSourceStep env),
   (.terminateConverter, terminateConverterStep env),
   (.killByName, killByNameStep env),
   (.unloadModule, unloadModuleStep env)]

/-- One try/except block: a step failure is caught and turned into a log
line instead of propagating. -/
def caughtStep (r : Except String Unit) : List String :=
  match r with
  | .ok _ => []
  | .error e => ["Error " ++ e]

/-- What one cleanup_camera call did: which steps ran, in order, and which
error log lines its except clauses emitted. -/
structure CleanupReport where
  stepsRun : List CleanupStep
  errorsLogged : List String
deriving DecidableEq, Repr

/-- cleanup_camera (camera.py lines 74 to 96): the four steps run in order,
each inside its own try/except, so a failing step adds a log line and the
next step still runs; no exception escapes. -/
def cleanup_camera (env : CleanupEnv) : Except String CleanupReport :=
  .ok
    { stepsRun := (cleanupSteps env).map Prod.fst,
      errorsLogged :=
        (cleanupSteps env).foldr (fun p acc => caughtStep p.2 ++ acc) [] }

/-- Claim C7: for every state of the two process handles and every pattern
of step failures, repeated invocations included, cleanup_camera returns
normally (never raises to its caller), runs all four steps in order, and
each individual step failure is caught and logged without stopping the
remaining steps. -/
theorem cleanup_total_all_steps (env : CleanupEnv) :
    ∃ rep, cleanup_camera env = Except.ok rep ∧
      rep.stepsRun = [CleanupStep.terminateSource,
        CleanupStep.terminateConverter, CleanupStep.killByName,
        CleanupStep.unloadModule] ∧
      ∀ p ∈ cleanupSteps env, ∀ e, p.2 = Except.error e →
        ("Error " ++ e) ∈ rep.errorsLogged := by
  refine ⟨_, rfl, rfl, ?_⟩
  intro p hp e he
  have hp2 : p = (CleanupStep.terminateSource, terminateSourceStep env) ∨
      p = (CleanupStep.terminateConverter, terminateConverterStep env) ∨
      p = (CleanupStep.killByName, killByNameStep env) ∨
      p = (CleanupStep.unloadModule, unloadModuleStep env) := by
    simpa [cleanupSteps] using hp
  rcases hp2 with h | h | h | h <;> subst h <;>
    simp_all [cleanupSteps, caughtStep]

/-!
FrameReader: frame_reader (camera.py lines 99 to 136).  Each loop
iteration observes one response of the device: the handle reports not
open, a read succeeds with a frame, a read soft-fails (ret falsy), or
the read raises.  The loop state is the frame cache plus the single
local variable retries.  Sleeps are recorded in time-units (2 before an
open retry, 1/10 after a successful or soft-failed read).
-/

/-- One device response per loop iteration of frame_reader. -/
inductive ReadEvent where
  | notOpened
  | readOk (f : Nat) (t : ℚ)
  | readSoft
  | readHard
deriving DecidableEq, Repr

/-- Why the while loop ended. -/
inductive ExitReason where
  | openRetriesExceeded
  | readRetriesExceeded
  | hardError
deriving DecidableEq, Repr

/-- Loop state of frame_reader: the shared frame cache and the one local
counter retries (camera.py line 103). -/
structure ReaderState where
  cache : FrameCache Nat ℚ
  retries : Nat
deriving DecidableEq, Repr

/-- The while loop of frame_reader (camera.py lines 104 to 133) run against
a finite list of device responses: final state, the exit reason if the
loop broke (none while the list is exhausted with the loop still
running), and the sleeps performed. -/
def readerLoop : ReaderState → List ReadEvent →
    ReaderState × Option ExitReason × List ℚ
  | st, [] => (st, none, [])
  | st, ReadEvent.notOpened :: rest =>
      let r := st.retries + 1
      if r > 5 then ({ st with retries := r }, some .openRetriesExceeded, [])
      else
        let out := readerLoop { st with retries := r } rest
        (out.1, out.2.1, 2 :: out.2.2)
  | st, ReadEvent.readOk f t :: rest =>
      let out := readerLoop { cache := publish st.cache f t, retries := 0 } rest
      (out.1, out.2.1, (1 / 10 : ℚ) :: out.2.2)
  | st, ReadEvent.readSoft :: rest =>
      let r := st.retries + 1
      if r > 500 then ({ st with retries := r }, some .readRetriesExceeded, [])
      else
        let out := readerLoop { st with retries := r } rest
        (out.1, out.2.1, (1 / 10 : ℚ) :: out.2.2)
  | st, ReadEvent.readHard :: _ => (st, some .hardError, [])

/-- Observable outcome of one frame_reader call. -/
structure ReaderRun where
  finalCache : FrameCache Nat ℚ
  finalRetries : Nat
  exit : Option ExitReason
  sleeps : List ℚ
  released : Bool
  cleanupCalls : Nat
deriving Repr

/-- frame_reader (camera.py lines 99 to 136): run the loop from an empty
cache and retries = 0; cap.release() and cleanup_camera() run after the
loop breaks, so with the response list exhausted and the loop still
running neither has happened yet. -/
def frame_reader (events : List ReadEvent) : ReaderRun :=
  let out := readerLoop { cache := initialCache Nat ℚ, retries := 0 } events
  match out.2.1 with
  | some r =>
      { finalCache := out.1.cache, finalRetries := out.1.retries,
        exit := some r, sleeps := out.2.2, released := true, cleanupCalls := 1 }
  | none =>
      { finalCache := out.1.cache, finalRetries := out.1.retries,
        exit := none, sleeps := out.2.2, released := false, cleanupCalls := 0 }

/-- Claim C4, counterexample.  With two distinct isolated budgets, any run
free of hard read errors holding at most 5 open failures and at most 500
read soft failures in total would keep the reader alive: consecutive
per-kind counts never exceed the totals, so neither threshold is ever
crossed.  But frame_reader shares one retries variable between the two
checks, so one soft failure followed by five open failures (a hard-error
free trace with open count 5 and soft count 1, both within their budgets)
drives the shared counter to 6 and stops the reader on the open check. -/
theorem reader_two_counters_claim_false :
    ¬ (∀ events : List ReadEvent,
        ReadEvent.readHard ∉ events ∧
            events.count ReadEvent.notOpened ≤ 5 ∧
            events.count ReadEvent.readSoft ≤ 500 →
          (frame_reader events).exit = none) := by
  intro h
  have h6 := h (ReadEvent.readSoft :: List.replicate 5 ReadEvent.notOpened)
    (by decide)
  rw [show (frame_reader (ReadEvent.readSoft ::
      List.replicate 5 ReadEvent.notOpened)).exit
    = some ExitReason.openRetriesExceeded by decide] at h6
  exact Option.noConfusion h6

set_option maxRecDepth 10000 in
/-- Claim C4, amended.  frame_reader keeps a single shared retry counter:
it is checked against 5 on a failed open and against 500 on a soft read
failure, and any successful read resets it to zero.  From a fresh
counter, 501 consecutive soft failures stop the reader while 499 soft
failures followed by one success reset the counter and the reader
continues; but the two budgets are not isolated: one soft failure
followed by only five open failures already stops the reader, the soft
failure having consumed part of the open budget. -/
theorem reader_single_shared_counter :
    (frame_reader (List.replicate 501 ReadEvent.readSoft)).exit
        = some ExitReason.readRetriesExceeded ∧
      (frame_reader (List.replicate 499 ReadEvent.readSoft ++
          [ReadEvent.readOk 0 0])).exit = none ∧
      (frame_reader (List.replicate 499 ReadEvent.readSoft ++
          [ReadEvent.readOk 0 0])).finalRetries = 0 ∧
      (frame_reader
          (ReadEvent.readSoft :: List.replicate 5 ReadEvent.notOpened)).exit
        = some ExitReason.openRetriesExceeded ∧
      ∀ (c : FrameCache Nat ℚ) (r : Nat) (f : Nat) (t : ℚ),
        (readerLoop ⟨c, r⟩ [ReadEvent.readOk f t]).1
          = ⟨publish c f t, 0⟩ := by
  refine ⟨by decide, by decide, by decide, by decide, ?_⟩
  intro c r f t
  rfl

/-- Claim C8: whenever the frame_reader loop breaks, on any of its three
exit paths, the device handle is released and cleanup_camera is invoked
exactly once; and a hard read error ends the loop at once, with no retry,
no sleep and no counter change, whatever responses would have followed. -/
theorem reader_exit_releases_and_cleans (events : List ReadEvent)
    (st : ReaderState) (rest : List ReadEvent) :
    ((frame_reader events).exit.isSome = true →
        (frame_reader events).released = true ∧
          (frame_reader events).cleanupCalls = 1) ∧
      readerLoop st (ReadEvent.readHard :: rest)
        = (st, some ExitReason.hardError, []) := by
  constructor
  · intro hex
    unfold frame_reader at *
    rcases hr : (readerLoop { cache := initialCache Nat ℚ, retries := 0 }
        events).2.1 with - | r <;> simp [hr] at *
  · rfl

/-!
OutputMonitor: monitor_ffmpeg_output (camera.py lines 139 to 156) and
monitor_gphoto_output (lines 158 to 175) are the same loop over a
diagnostic stream; the stream is a list of lines and an exhausted
stream yields the empty read.
-/

/-- pat occurs at the start of hay (character for character). -/
def startsWithChars : List Char → List Char → Bool
  | _, [] => true
  | [], _ :: _ => false
  | a :: as, b :: bs => a == b && startsWithChars as bs

/-- pat occurs contiguously somewhere in hay, the Python in operator on
strings. -/
def hasSubSeq : List Char → List Char → Bool
  | [], pat => pat.isEmpty
  | a :: t, pat => startsWithChars (a :: t) pat || hasSubSeq t pat

/-- The Python expression pat in line. -/
def containsSub (line pat : String) : Bool :=
  hasSubSeq line.toList pat.toList

/-- The fatal test of both monitors (camera.py lines 146 to 149 and
165 to 168): the line holds one of the two case-sensitive fatal
substrings. -/
def fatalLine (line : String) : Bool :=
  containsSub line "Invalid data found" ||
    containsSub line "Could not find the requested device"

/-- One monitor run over its stream: how often cleanup_camera was invoked
and the lines left unread when the loop stopped.  An empty read (falsy
line, the stream ended) stops the loop with no cleanup; a fatal line logs,
invokes cleanup_camera once and stops; any other line logs and the loop
keeps watching. -/
def monitor_output : List String → Nat × List String
  | [] => (0, [])
  | line :: rest =>
    if line = "" then (0, rest)
    else if fatalLine line then (1, rest)
    else monitor_output rest

/-- A run of nonempty non-fatal lines is watched straight through: the
monitor consumes them all without cleanup and goes on with the rest of
the stream. -/
theorem monitor_skips_nonfatal (pre tail : List String)
    (hpre : ∀ l ∈ pre, l ≠ "" ∧ fatalLine l = false) :
    monitor_output (pre ++ tail) = monitor_output tail := by
  induction pre with
  | nil => rfl
  | cons l pre ih =>
    obtain ⟨h1, h2⟩ := hpre l (by simp)
    rw [List.cons_append, monitor_output, if_neg h1, h2]
    exact ih fun x hx => hpre x (by simp [hx])

/-- An empty pattern never matches the fatal test; both fatal substrings
are nonempty, so a fatal line is nonempty. -/
theorem fatalLine_ne_empty (line : String) (h : fatalLine line = true) :
    line ≠ "" := by
  intro he
  subst he
  exact absurd h (by decide)

/-- Claim C5: after any run of nonempty non-fatal lines, which the monitor
watches without invoking cleanup, a line holding a fatal substring makes
it invoke cleanup_camera exactly once and stop; a stream of only nonempty
non-fatal lines ends with no cleanup and nothing skipped; and an empty
read stops the monitor at once with no cleanup. -/
theorem monitor_cleanup_behavior :
    (∀ (pre : List String) (line : String) (rest : List String),
        (∀ l ∈ pre, l ≠ "" ∧ fatalLine l = false) → fatalLine line = true →
          monitor_output (pre ++ line :: rest) = (1, rest)) ∧
      (∀ lines : List String, (∀ l ∈ lines, l ≠ "" ∧ fatalLine l = false) →
        monitor_output lines = (0, [])) ∧
      (∀ (pre rest : List String), (∀ l ∈ pre, l ≠ "" ∧ fatalLine l = false) →
        monitor_output (pre ++ "" :: rest) = (0, rest)) := by
  refine ⟨fun pre line rest hpre hline => ?_, fun lines hl => ?_,
    fun pre rest hpre => ?_⟩
  · rw [monitor_skips_nonfatal pre _ hpre, monitor_output,
      if_neg (fatalLine_ne_empty line hline), hline, if_pos rfl]
  · have := monitor_skips_nonfatal lines [] hl
    simpa using this
  · rw [monitor_skips_nonfatal pre _ hpre, monitor_output, if_pos rfl]

/-- Witness for claim C5 on a concrete stream: an informational ffmpeg line
followed by a fatal one triggers exactly one cleanup and stops before the
rest of the stream; an all-informational stream and an ended stream
trigger none. -/
theorem monitor_cleanup_behavior_witness :
    monitor_output (["frame=  100 fps= 25"] ++
        "ffmpeg: Invalid data found when processing input" :: ["later line"])
      = (1, ["later line"]) ∧
      monitor_output ["frame=  100 fps= 25", "frame=  200 fps= 25"] = (0, []) ∧
      monitor_output (["frame=  100 fps= 25"] ++ "" :: ["after end"])
        = (0, ["after end"]) :=
  ⟨monitor_cleanup_behavior.1 ["frame=  100 fps= 25"]
      "ffmpeg: Invalid data found when processing input" ["later line"]
      (by decide) (by decide),
    monitor_cleanup_behavior.2.1 ["frame=  100 fps= 25", "frame=  200 fps= 25"]
      (by decide),
    monitor_cleanup_behavior.2.2 ["frame=  100 fps= 25"] ["after end"]
      (by decide)⟩

/-!
HTTP facade: the image endpoint (web.py lines 42 to 53) and the status
endpoint (web.py lines 56 to 68).  Request time is the now argument;
imencode is the external JPEG encoder, which may fail.
-/

/-- What an image request returns: a body with a mimetype, or HTTP 404. -/
inductive ImageResp where
  | ok (body : List Nat) (mimetype : String)
  | notFound
deriving DecidableEq, Repr

/-- The image view (web.py lines 42 to 53).  The guard is the Python
condition frame_buffer is not None and frame_buffer_time and
frame_buffer_time greater than time.time() minus 5: a None frame, a None
or zero timestamp (falsy float), or a timestamp not strictly newer than
now minus 5 all fall through to abort(404), and so does a failed
cv2.imencode. -/
def image {Frame : Type} (fb : Option Frame) (fbt : Option ℚ) (now : ℚ)
    (imencode : Frame → Option (List Nat)) : ImageResp :=
  match fb, fbt with
  | some f, some t =>
    if t ≠ 0 ∧ t > now - 5 then
      match imencode f with
      | some buf => .ok buf "image/jpeg"
      | none => .notFound
    else .notFound
  | _, _ => .notFound

/-- Claim C6, counterexample.  The claim reads the freshness cutoff as
timestamp at least now minus 5; the code compares strictly
(frame_buffer_time greater than time.time() minus 5, web.py line 48), so
a frame exactly 5 time-units old, timestamp 1 at now 6, satisfies the
claim but gets 404. -/
theorem image_fresh_claim_false :
    ¬ (∀ (fb : Option Nat) (fbt : Option ℚ) (now : ℚ)
          (imencode : Nat → Option (List Nat)),
        (∃ b, image fb fbt now imencode = ImageResp.ok b "image/jpeg") ↔
          ∃ f t, fb = some f ∧ fbt = some t ∧ t ≥ now - 5) := by
  intro h
  obtain ⟨b, hb⟩ := (h (some 0) (some 1) 6 (fun f => some [f])).2
    ⟨0, 1, rfl, rfl, by norm_num⟩
  rw [show image (some 0) (some (1 : ℚ)) 6 (fun f => some [f])
      = ImageResp.notFound by norm_num [image]] at hb
  exact ImageResp.noConfusion hb

/-- Claim C6, amended.  The image request returns 200 with JPEG bytes and
mimetype image/jpeg exactly when a frame exists, its timestamp is set and
nonzero, the timestamp is strictly newer than now minus 5, and JPEG
encoding succeeds; in every other case it returns 404. -/
theorem image_response_characterization (Frame : Type) (fb : Option Frame)
    (fbt : Option ℚ) (now : ℚ) (imencode : Frame → Option (List Nat)) :
    ((∃ b, image fb fbt now imencode = ImageResp.ok b "image/jpeg") ↔
        ∃ f t, fb = some f ∧ fbt = some t ∧ t ≠ 0 ∧ t > now - 5 ∧
          (imencode f).isSome = true) ∧
      ((∃ b, image fb fbt now imencode = ImageResp.ok b "image/jpeg") ∨
        image fb fbt now imencode = ImageResp.notFound) := by
  rcases fb with - | f <;> rcases fbt with - | t
  · simp [image]
  · simp [image]
  · simp [image]
  · by_cases hc : t ≠ 0 ∧ t > now - 5
    · rcases he : imencode f with - | b
      · simp [image, hc, he]
      · simp [image, hc, he]
    · have himg : image (some f) (some t) now imencode = ImageResp.notFound :=
        if_neg hc
      rw [himg]
      refine ⟨⟨?_, ?_⟩, Or.inr rfl⟩
      · rintro ⟨b, hb⟩
        exact ImageResp.noConfusion hb
      · rintro ⟨f2, t2, -, ht2, h0, h5, -⟩
        injection ht2 with h
        subst h
        exact absurd ⟨h0, h5⟩ hc

/-- The status view (web.py lines 56 to 68): uptime since service start,
age of the current frame when a timestamp exists, and frame availability,
which is only the test frame_buffer is not None. -/
structure StatusBody where
  uptime : ℚ
  frame_age : Option ℚ
  frame_available : Bool
deriving DecidableEq, Repr

/-- The status view as a function of the two globals, the request time and
the service start time. -/
def status {Frame : Type} (fb : Option Frame) (fbt : Option ℚ)
    (now start_time : ℚ) : StatusBody :=
  { uptime := now - start_time,
    frame_age :=
      match fbt with
      | some t => some (now - t)
      | none => none,
    frame_available := fb.isSome }

/-- Claim C10: once any frame has been published, status reports
frame_available true regardless of the age of the frame; in every state
whose frame is at least 5 time-units old the same state makes the image
request return 404 while status still reports the frame available. -/
theorem status_available_while_image_stale (Frame : Type) (f : Frame)
    (t now start_time : ℚ) (imencode : Frame → Option (List Nat))
    (hstale : t ≤ now - 5) :
    (status (some f) (some t) now start_time).frame_available = true ∧
      image (some f) (some t) now imencode = ImageResp.notFound := by
  refine ⟨rfl, ?_⟩
  have hng : ¬ (t ≠ 0 ∧ t > now - 5) := by
    rintro ⟨-, h5⟩
    linarith
  simp [image, hng]

/-- Witness for claim C10: a frame published at time 0 and requested at
time 5 (exactly the staleness threshold) still counts as available for
status while the image request returns 404. -/
theorem status_available_while_image_stale_witness :
    (status (some 0) (some (0 : ℚ)) 5 0).frame_available = true ∧
      image (some (0 : Nat)) (some (0 : ℚ)) 5 (fun f => some [f])
        = ImageResp.notFound :=
  status_available_while_image_stale Nat 0 0 5 0 (fun f => some [f])
    (by norm_num)

/-!
Launch ordering: setup_camera as a trace of external actions
(camera.py lines 32 to 71) and start_webcam_service (service.py lines
19 to 25), which runs setup_camera, kills port listeners, starts the
frame_reader thread and then runs the web app.
-/

/-- How a launched process's standard streams are wired. -/
inductive StreamSpec where
  | inherit
  | piped
  | devnull
  | fromSourceStdout
deriving DecidableEq, Repr

/-- One external action of the service in the order the source performs
them. -/
inductive Action where
  | runCmd (argv : List String)
  | launch (argv : List String) (stdinSpec stdoutSpec stderrSpec : StreamSpec)
  | startThread (target : String)
  | killPort (port : Nat)
  | runFlaskApp (port : Nat)
deriving DecidableEq, Repr

/-- True exactly for a thread start action. -/
def Action.isThreadStart : Action → Bool
  | .startThread _ => true
  | _ => false

/-- True exactly for a process launch action. -/
def Action.isLaunch : Action → Bool
  | .launch _ _ _ _ => true
  | _ => false

/-- True exactly for the start of the frame_reader thread. -/
def Action.isFrameReaderStart : Action → Bool
  | .startThread t => t == "frame_reader"
  | _ => false

/-- Argument list of the source process (camera.py line 44). -/
def sourceArgs (gphotoPath : String) : List String :=
  [gphotoPath, "--stdout", "--capture-movie"]

/-- Argument list of the converter process (camera.py lines 51 to 60). -/
def converterArgs (ffmpegPath : String) : List String :=
  [ffmpegPath, "-i", "-", "-pix_fmt", "yuv420p", "-f", "v4l2", "/dev/video0"]

/-- The actions of a successful setup_camera run in source order
(camera.py lines 35 to 68): the three kernel-module commands, the source
launch with stdout and stderr piped, the converter launch with stdin
wired to the source stdout, then the two monitor threads. -/
def setup_trace (gphotoPath ffmpegPath : String) : List Action :=
  [.runCmd ["sudo", "pkill", "-9", "gphoto2"],
   .runCmd ["sudo", "rmmod", "v4l2loopback"],
   .runCmd ["sudo", "modprobe", "v4l2loopback", "devices=1",
     "exclusive_caps=1"],
   .launch (sourceArgs gphotoPath) .inherit .piped .piped,
   .launch (converterArgs ffmpegPath) .fromSourceStdout .devnull .piped,
   .startThread "monitor_ffmpeg_output",
   .startThread "monitor_gphoto_output"]

/-- The actions of start_webcam_service (service.py lines 19 to 25): the
whole of setup_camera, then the port kill, then the frame_reader thread,
then the web app. -/
def start_webcam_service_trace (gphotoPath ffmpegPath : String)
    (port : Nat) : List Action :=
  setup_trace gphotoPath ffmpegPath ++
    [.killPort port, .startThread "frame_reader", .runFlaskApp port]

/-- Claim C9: in a successful setup the source process is launched first,
with exactly the fixed gphoto2 argument list, no other launch preceding
it; the converter is launched next with stdin wired to the source stdout
and exactly the fixed ffmpeg argument list; no thread starts before both
launches; and the frame_reader thread starts only at position 8, after
every one of the 7 setup actions has completed. -/
theorem setup_service_ordering (g f : String) (port : Nat) :
    (setup_trace g f).get? 3
        = some (Action.launch (sourceArgs g) .inherit .piped .piped) ∧
      (setup_trace g f).get? 4
        = some (Action.launch (converterArgs f) .fromSourceStdout .devnull
            .piped) ∧
      ((setup_trace g f).take 3).all (fun a => !a.isLaunch) = true ∧
      ((setup_trace g f).take 5).all (fun a => !a.isThreadStart) = true ∧
      (setup_trace g f).length = 7 ∧
      start_webcam_service_trace g f port = setup_trace g f ++
        [Action.killPort port, Action.startThread "frame_reader",
          Action.runFlaskApp port] ∧
      ((start_webcam_service_trace g f port).take 8).all
          (fun a => !a.isFrameReaderStart) = true ∧
      (start_webcam_service_trace g f port).get? 8
        = some (Action.startThread "frame_reader") :=
  ⟨rfl, rfl, rfl, rfl, rfl, rfl, rfl, rfl⟩

end Webcam
